import Mathlib

/-!
Shallow embedding of the classy-connect-chat front end.

Two components carry all the behaviour the specification talks about:

* `ConnectionButton` (health check, connect POST, SDK connect, transport
  state mirroring);
* `StartupForm` (the three-field form state machine driven by user events
  and server messages).

Pure functions below are translated directly from the component handlers.
Asynchronous effects (fetch outcomes, SDK promise rejections) are modelled
as boolean parameters describing the outcome of each awaited operation, and
every outward effect (HTTP request, SDK call, client message, toast) is
recorded in an explicit action or message list in program order.
Timestamps and console logging are omitted: they carry wall-clock data and
debug text only and no claim mentions them.
-/

/-- The three fixed form fields (`type FormField` in StartupForm.tsx). -/
inductive FormField
  | name
  | email
  | experience
deriving DecidableEq, BEq

/-- The `formData` state object: one free-text value per field. -/
structure FormData where
  name : String
  email : String
  experience : String
deriving DecidableEq, BEq

/-- `interface FormFieldConfig`. In the source `label`, `placeholder` and
`required` are optional, but every write site in the component supplies all
three, so they are plain fields here. -/
structure FormFieldConfig where
  field : FormField
  label : String
  placeholder : String
  required : Bool
deriving DecidableEq, BEq

/-- The complete local state of the `StartupForm` component: the six
`useState` cells. -/
structure FormState where
  currentField : FormField
  fieldConfig : FormFieldConfig
  formData : FormData
  validationError : String
  isSubmitting : Bool
  formComplete : Bool
deriving DecidableEq, BEq

/-- The initial `fieldConfig` value (also restored by `handleReset`). -/
def initFieldConfig : FormFieldConfig :=
  { field := FormField.name
    label := "What\u0027s your name?"
    placeholder := "Enter your full name"
    required := true }

/-- The initial component state. -/
def initFormState : FormState :=
  { currentField := FormField.name
    fieldConfig := initFieldConfig
    formData := { name := "", email := "", experience := "" }
    validationError := ""
    isSubmitting := false
    formComplete := false }

/-- Read one field of `formData` (the `formData[currentField]` lookup). -/
def getField (d : FormData) : FormField → String
  | FormField.name => d.name
  | FormField.email => d.email
  | FormField.experience => d.experience

/-- Write one field of `formData` (the `{ ...prev, [field]: value }` spread). -/
def setField (d : FormData) : FormField → String → FormData
  | FormField.name, v => { d with name := v }
  | FormField.email, v => { d with email := v }
  | FormField.experience, v => { d with experience := v }

/-- Remove the first occurrence of a character from a character list
(the semantics of the JavaScript single-string `replace`). -/
def removeFirstChar : List Char → Char → List Char
  | [], _ => []
  | a :: rest, c => if a = c then rest else a :: removeFirstChar rest c

/-- `label.replace( '?' , "")`: drop the first question mark, keep the rest. -/
def removeFirstQmark (s : String) : String :=
  ⟨removeFirstChar s.data '?'⟩

/-- The JavaScript `trim`: strip leading and trailing whitespace.  Written
with structural recursion over the character list so that concrete values
reduce inside the kernel. -/
def jsTrim (s : String) : String :=
  ⟨((s.data.dropWhile Char.isWhitespace).reverse.dropWhile
      Char.isWhitespace).reverse⟩

/-- A client-to-server message sent through `sendClientMessage`.  The
constructor records the payload; `msgType` below gives the wire type tag.
The `timestamp` payload member is omitted (wall clock). -/
inductive ClientMessage
  | formFieldData (field : FormField) (value : String)
  | formComplete (data : FormData)
  | getCurrentField
deriving DecidableEq, BEq

/-- The wire `type` string of each client message. -/
def msgType : ClientMessage → String
  | ClientMessage.formFieldData _ _ => "form_field_data"
  | ClientMessage.formComplete _ => "form_complete"
  | ClientMessage.getCurrentField => "get_current_field"

/-- Environment of one form interaction: whether the component prop
`isConnected` is true, whether `pipecatClient` is non-null, and whether the
awaited `sendClientMessage` promise rejects. -/
structure Ctx where
  isConnected : Bool
  clientAvailable : Bool
  sendRejected : Bool
deriving DecidableEq

/-- `interface ServerFormMessage`: the payload of a server message whose
`type` is the form-initialization tag, with `field_config` flattened. -/
structure ServerFormMessage where
  current_field : FormField
  label : String
  placeholder : String
  required : Bool
deriving DecidableEq

/-- The `status` discriminator of `ServerResponseData` ("success",
"error" or "complete"). -/
inductive RespStatus
  | success
  | error
  | complete
deriving DecidableEq

/-- A `next_field` value: either a concrete field or the literal
string "complete". -/
inductive NextField
  | field (f : FormField)
  | complete
deriving DecidableEq

/-- A nested `label` / `placeholder` / `required` configuration payload. -/
structure CfgPayload where
  label : String
  placeholder : String
  required : Bool
deriving DecidableEq

/-- `interface ServerResponseData` (the members the handler reads; `error`,
`message`, `form_data`, `field_id`, `value` and `current_field` only feed
toast text and console logs). -/
structure ServerResponseData where
  status : Option RespStatus
  next_field : Option NextField
  next_field_config : Option CfgPayload
  current_field_config : Option CfgPayload
  validation_error : Option String
deriving DecidableEq

/-- JavaScript truthiness of an optional string: present and non-empty. -/
def truthyStr : Option String → Bool
  | some v => v != ""
  | none => false

/-- `handleChange`: store the new value, then clear the validation error
when one is displayed. -/
def handleChange (s : FormState) (field : FormField) (value : String) :
    FormState :=
  let s1 := { s with formData := setField s.formData field value }
  if s1.validationError != "" then { s1 with validationError := "" } else s1

/-- `sendFieldData`: guard on connection and client, mark submitting, send
the field message; a rejected promise resets the flag and toasts.
Result: (new state, messages sent, toast titles shown). -/
def sendFieldData (ctx : Ctx) (s : FormState) (field : FormField)
    (value : String) : FormState × List ClientMessage × List String :=
  if ctx.isConnected && ctx.clientAvailable then
    let s1 := { s with isSubmitting := true }
    if ctx.sendRejected then
      ({ s1 with isSubmitting := false },
        [ClientMessage.formFieldData field value], ["Send Failed"])
    else
      (s1, [ClientMessage.formFieldData field value], [])
  else
    (s, [], ["Not Connected"])

/-- `handleSubmit`: refuse after completion, validate the trimmed current
value, otherwise delegate to `sendFieldData` with the trimmed value. -/
def handleSubmit (ctx : Ctx) (s : FormState) :
    FormState × List ClientMessage × List String :=
  if s.formComplete then
    (s, [], ["Form Already Complete"])
  else
    let currentValue := getField s.formData s.currentField
    if jsTrim currentValue = "" then
      ({ s with validationError :=
          removeFirstQmark s.fieldConfig.label ++ " is required" }, [], [])
    else
      sendFieldData ctx s s.currentField (jsTrim currentValue)

/-- `handleCompleteForm`: guard on connection and client, mark submitting,
send the whole form; a rejected promise resets the flag and toasts. -/
def handleCompleteForm (ctx : Ctx) (s : FormState) :
    FormState × List ClientMessage × List String :=
  if ctx.isConnected && ctx.clientAvailable then
    let s1 := { s with isSubmitting := true }
    if ctx.sendRejected then
      ({ s1 with isSubmitting := false },
        [ClientMessage.formComplete s.formData], ["Submission Failed"])
    else
      (s1, [ClientMessage.formComplete s.formData], [])
  else
    (s, [], ["Not Connected"])

/-- `handleReset`: restore the field values, pointer, error, completion flag
and field configuration to their initial values (the submitting flag is not
touched). -/
def handleReset (s : FormState) :
    FormState × List ClientMessage × List String :=
  ({ s with formData := { name := "", email := "", experience := "" }
            currentField := FormField.name
            validationError := ""
            formComplete := false
            fieldConfig := initFieldConfig }, [], ["Form Reset"])

/-- `requestCurrentField`: silently do nothing when disconnected, otherwise
send the current-field query (its rejection handler only logs). -/
def requestCurrentField (ctx : Ctx) (s : FormState) :
    FormState × List ClientMessage × List String :=
  if ctx.isConnected && ctx.clientAvailable then
    (s, [ClientMessage.getCurrentField], [])
  else
    (s, [], [])

/-- The `ServerMessage` event handler: a payload of the
form-initialization type installs the pushed field and configuration and
clears the error and completion flags; any other payload is ignored
(`none` stands for a message of a different `type`). -/
def onServerMessage (s : FormState) : Option ServerFormMessage → FormState
  | none => s
  | some msg =>
      { s with currentField := msg.current_field
               fieldConfig :=
                 { field := msg.current_field
                   label := msg.label
                   placeholder := msg.placeholder
                   required := msg.required }
               validationError := ""
               formComplete := false }

/-- The `ServerResponse` event handler: the submitting flag is always
cleared first; then the `status` discriminator selects the success, error
or complete branch. Result: (new state, toast titles shown). -/
def onServerResponse (s : FormState) (d : Option ServerResponseData) :
    FormState × List String :=
  let s0 := { s with isSubmitting := false }
  match d with
  | none => (s0, [])
  | some r =>
    match r.status with
    | some RespStatus.success =>
      let s1 := { s0 with validationError := "" }
      match r.next_field, r.next_field_config with
      | some NextField.complete, _ =>
          ({ s1 with formComplete := true }, ["Form Complete!"])
      | some (NextField.field f), some c =>
          ({ s1 with currentField := f
                     fieldConfig :=
                       { field := f
                         label := c.label
                         placeholder := c.placeholder
                         required := c.required } }, ["Field Updated!"])
      | _, _ => (s1, [])
    | some RespStatus.error =>
      let s1 :=
        if truthyStr r.validation_error then
          { s0 with validationError := r.validation_error.getD "" }
        else s0
      let s2 :=
        match r.current_field_config with
        | some c =>
            { s1 with fieldConfig :=
                { s1.fieldConfig with
                    label := c.label
                    placeholder := c.placeholder
                    required := c.required } }
        | none => s1
      (s2, ["Validation Error"])
    | some RespStatus.complete =>
        ({ s0 with formComplete := true }, ["Form Submitted!"])
    | none => (s0, [])

/-- `canSubmit`: connected, non-blank current value, not already
submitting, not complete. -/
def canSubmit (isConnected : Bool) (s : FormState) : Bool :=
  isConnected && jsTrim (getField s.formData s.currentField) != ""
    && !s.isSubmitting && !s.formComplete

/-- `renderField`: the switch over `currentField` that renders exactly one
input; the result is the field of the single rendered input. -/
def renderField (s : FormState) : Option FormField :=
  match s.currentField with
  | FormField.name => some FormField.name
  | FormField.email => some FormField.email
  | FormField.experience => some FormField.experience

/-- The inputs the component exposes: none once the form is complete (the
completion screen replaces the form), otherwise the single input produced
by `renderField`. -/
def renderedInputs (s : FormState) : List FormField :=
  if s.formComplete then []
  else
    match renderField s with
    | some f => [f]
    | none => []

/-- One user event or SDK callback handled by the form component. -/
inductive FormEvent
  | change (field : FormField) (value : String)
  | submit
  | completeForm
  | reset
  | requestField
  | serverMsg (m : Option ServerFormMessage)
  | serverResp (d : Option ServerResponseData)

/-- The full transition function of the form component: every handler,
with the messages it sends and the toast titles it shows. -/
def formStep (ctx : Ctx) (s : FormState) :
    FormEvent → FormState × List ClientMessage × List String
  | FormEvent.change f v => (handleChange s f v, [], [])
  | FormEvent.submit => handleSubmit ctx s
  | FormEvent.completeForm => handleCompleteForm ctx s
  | FormEvent.reset => handleReset s
  | FormEvent.requestField => requestCurrentField ctx s
  | FormEvent.serverMsg m => (onServerMessage s m, [], [])
  | FormEvent.serverResp d =>
      let r := onServerResponse s d
      (r.1, [], r.2)

/-- The SDK transport-state enumeration (the values the component reads). -/
inductive TransportState
  | initializing
  | initialized
  | authenticating
  | authenticated
  | connecting
  | connected
  | ready
  | disconnected
  | error
deriving DecidableEq, BEq

/-- `isConnectedState`: the helper treating both the connected and the
ready transport states as connected. -/
def isConnectedState (state : TransportState) : Bool :=
  state == TransportState.connected || state == TransportState.ready

/-- The local state of the `ConnectionButton` component. -/
structure ConnBtnState where
  isConnecting : Bool
  transportState : TransportState
  connectionAttempts : Nat
deriving DecidableEq

/-- The `TransportStateChanged` handler: store the reported state, clear
the connecting flag on final states, and report
`isConnectedState state` to the parent (the second component). -/
def onTransportStateChanged (s : ConnBtnState) (state : TransportState) :
    ConnBtnState × Bool :=
  let s1 := { s with transportState := state }
  let s2 :=
    if state == TransportState.connected || state == TransportState.ready
        || state == TransportState.disconnected
        || state == TransportState.error then
      { s1 with isConnecting := false }
    else s1
  (s2, isConnectedState state)

/-- One outward effect of `handleConnect`, in program order. -/
inductive ConnAction
  | healthGet
  | connectPost (llm tts : String)
  | sdkConnect
  | errorToast (title : String)
deriving DecidableEq, BEq

/-- `handleConnect`: bump the attempt counter, set the connecting flag,
then run health GET, connect POST (body `services.llm` / `services.tts`)
and the SDK `connect` in order, each only after the previous succeeded.
The boolean parameters give the outcome of the client-null check, the
health fetch (`testEndpoint`), the connect fetch (`testConnectEndpoint`)
and the awaited SDK connect.  Any failure is caught by the single catch
block, which clears the connecting flag and shows one destructive toast
whose title is chosen from the error message. -/
def handleConnect (s : ConnBtnState)
    (clientAvailable healthOk connectOk sdkOk : Bool) :
    ConnBtnState × List ConnAction :=
  let s1 := { s with connectionAttempts := s.connectionAttempts + 1
                     isConnecting := true }
  if !clientAvailable then
    ({ s1 with isConnecting := false }, [ConnAction.errorToast "Client Error"])
  else if !healthOk then
    ({ s1 with isConnecting := false },
      [ConnAction.healthGet, ConnAction.errorToast "Server Unavailable"])
  else if !connectOk then
    ({ s1 with isConnecting := false },
      [ConnAction.healthGet, ConnAction.connectPost "openai" "cartesia",
       ConnAction.errorToast "Connection Endpoint Error"])
  else if !sdkOk then
    ({ s1 with isConnecting := false },
      [ConnAction.healthGet, ConnAction.connectPost "openai" "cartesia",
       ConnAction.sdkConnect, ConnAction.errorToast "Connection Failed"])
  else
    (s1,
      [ConnAction.healthGet, ConnAction.connectPost "openai" "cartesia",
       ConnAction.sdkConnect])

/-- Recognise the toast action among the effects of `handleConnect`. -/
def isErrorToast : ConnAction → Bool
  | ConnAction.errorToast _ => true
  | _ => false

/-- A state whose name field is filled in, used at concrete inputs. -/
def aliceState : FormState :=
  { initFormState with
      formData := { name := "Alice", email := "", experience := "" } }

/-- A sample server push of the email field, used at concrete inputs. -/
def emailFormMsg : ServerFormMessage :=
  { current_field := FormField.email
    label := "Your email"
    placeholder := "Email address"
    required := true }

/-- A sample error response, used at concrete inputs. -/
def sampleErrorResponse : ServerResponseData :=
  { status := some RespStatus.error
    next_field := none
    next_field_config := none
    current_field_config :=
      some { label := "Try again", placeholder := "retry", required := true }
    validation_error := some "Please enter a valid value" }

/-- Concrete environment: connected, client present, sends succeed. -/
def onlineCtx : Ctx :=
  { isConnected := true, clientAvailable := true, sendRejected := false }

/-- Concrete environment: connected and client present, but the awaited
send rejects. -/
def rejectedSendCtx : Ctx :=
  { isConnected := true, clientAvailable := true, sendRejected := true }

/-- Concrete environment: disconnected. -/
def offlineCtx : Ctx :=
  { isConnected := false, clientAvailable := true, sendRejected := false }

/-- A concrete starting state for the connection button. -/
def connStart : ConnBtnState :=
  { isConnecting := false, transportState := TransportState.disconnected,
    connectionAttempts := 0 }

/-- Appending the required-suffix always yields a non-empty string, so the
validation message set by `handleSubmit` is never empty. -/
theorem append_is_required_ne_empty (x : String) : x ++ " is required" ≠ "" := by
  intro hcontra
  have hlen := congrArg String.length hcontra
  simp [String.length_append] at hlen
  exact absurd hlen.2 (by decide)

/-- C5: after every TransportStateChanged event the stored transport state
equals the state the SDK reported, and the parent is notified as connected
exactly when that state is connected or ready; every other state is
reported as not connected. -/
theorem transportState_mirrored (s : ConnBtnState) (st : TransportState) :
    (onTransportStateChanged s st).1.transportState = st
    ∧ (onTransportStateChanged s st).2 = isConnectedState st
    ∧ (isConnectedState st = true ↔
        st = TransportState.connected ∨ st = TransportState.ready) := by
  refine ⟨?_, rfl, ?_⟩
  · cases st <;> rfl
  · cases st <;> decide

/-- C10: every user edit stores the new value in the edited field, leaves
the other two fields unchanged, and leaves the validation error empty. -/
theorem handleChange_clears_error (s : FormState) (f : FormField) (v : String) :
    getField (handleChange s f v).formData f = v
    ∧ (∀ g : FormField, g ≠ f →
        getField (handleChange s f v).formData g = getField s.formData g)
    ∧ (handleChange s f v).validationError = "" := by
  refine ⟨?_, ?_, ?_⟩
  · simp only [handleChange]
    split <;> cases f <;> simp [getField, setField]
  · intro g hg
    simp only [handleChange]
    split <;> cases f <;> cases g <;> simp_all [getField, setField]
  · simp only [handleChange]
    split
    · rfl
    · next hne => simpa using hne

/-- Witness for C10: editing the name field of the initial state leaves the
email field unchanged. -/
theorem handleChange_clears_error_witness :
    getField (handleChange initFormState FormField.name "Ada").formData
        FormField.email
      = getField initFormState.formData FormField.email :=
  (handleChange_clears_error initFormState FormField.name "Ada").2.1
    FormField.email (by decide)

/-- C3 counterexample: a form-initialization push onto a state with a
filled name field leaves that value in place and moves the pointer to the
field named by the server, so the claim that both reset paths empty all
three values and restore the pointer fails. -/
theorem formInit_reset_counterexample :
    (onServerMessage aliceState (some emailFormMsg)).formData.name = "Alice"
    ∧ "Alice" ≠ ""
    ∧ (onServerMessage aliceState (some emailFormMsg)).currentField
        ≠ FormField.name := by decide

/-- C3 (amended): the user reset action restores the three field values,
the pointer, the error, the completion flag and the field configuration to
their initial values; the form-initialization server message clears the
error and the completion flag and installs the pushed field and
configuration, but leaves the three stored field values unchanged. -/
theorem reset_and_server_init_behaviour (s : FormState)
    (msg : ServerFormMessage) :
    ((handleReset s).1.formData = { name := "", email := "", experience := "" }
      ∧ (handleReset s).1.currentField = FormField.name
      ∧ (handleReset s).1.validationError = ""
      ∧ (handleReset s).1.formComplete = false
      ∧ (handleReset s).1.fieldConfig = initFieldConfig)
    ∧ ((onServerMessage s (some msg)).formData = s.formData
      ∧ (onServerMessage s (some msg)).currentField = msg.current_field
      ∧ (onServerMessage s (some msg)).validationError = ""
      ∧ (onServerMessage s (some msg)).formComplete = false) := by
  simp [handleReset, onServerMessage]

/-- C4: every client-to-server message produced by any handler of the form
component carries one of the three declared wire types. -/
theorem client_message_types (ctx : Ctx) (s : FormState) (e : FormEvent) :
    ((formStep ctx s e).2.1.all fun m =>
      ["form_field_data", "form_complete", "get_current_field"].contains
        (msgType m)) = true := by
  cases e <;>
    simp only [formStep, handleSubmit, sendFieldData, handleCompleteForm,
      handleReset, requestCurrentField] <;>
    repeat' split
  all_goals simp [msgType]

/-- C7: after every transition of the form component the rendered form
exposes at most one input, and when the form is not complete it exposes
exactly the input of the current field. -/
theorem one_input_per_state (ctx : Ctx) (s : FormState) (e : FormEvent) :
    (renderedInputs (formStep ctx s e).1).length ≤ 1
    ∧ renderedInputs (formStep ctx s e).1
        = (if (formStep ctx s e).1.formComplete then []
           else [(formStep ctx s e).1.currentField]) := by
  generalize (formStep ctx s e).1 = t
  unfold renderedInputs renderField
  cases hc : t.formComplete <;> cases t.currentField <;> simp

/-- C1: with the SDK client available, `handleConnect` issues the health
GET first; the connect POST naming the llm and tts providers appears
exactly when the health check succeeded; the SDK connect appears exactly
when both HTTP steps succeeded, and only after the GET and the POST; and
when either HTTP step fails the flow ends with the catch-branch toast. -/
theorem handleConnect_order (s : ConnBtnState) (h c k : Bool) :
    (handleConnect s true h c k).2.head? = some ConnAction.healthGet
    ∧ (ConnAction.connectPost "openai" "cartesia" ∈ (handleConnect s true h c k).2
        ↔ h = true)
    ∧ (ConnAction.sdkConnect ∈ (handleConnect s true h c k).2
        ↔ (h = true ∧ c = true))
    ∧ (ConnAction.sdkConnect ∈ (handleConnect s true h c k).2 →
        (handleConnect s true h c k).2.take 2
          = [ConnAction.healthGet, ConnAction.connectPost "openai" "cartesia"])
    ∧ ((h = false ∨ c = false) →
        ∃ t, (handleConnect s true h c k).2.getLast?
          = some (ConnAction.errorToast t)) := by
  cases h <;> cases c <;> cases k <;> simp [handleConnect]

/-- Witness for C1: on the all-success run the two actions before the SDK
connect are the health GET and then the connect POST. -/
theorem handleConnect_order_witness :
    (handleConnect connStart true true true true).2.take 2
      = [ConnAction.healthGet, ConnAction.connectPost "openai" "cartesia"] :=
  (handleConnect_order connStart true true true).2.2.2.1
    (by simp [handleConnect])

/-- C2 counterexample: with the form not complete and a non-blank current
value, a submit in the disconnected state sends no message at all, so the
claim that such a submit always sends the field message fails. -/
theorem submit_disconnected_counterexample :
    aliceState.formComplete = false
    ∧ jsTrim (getField aliceState.formData aliceState.currentField) ≠ ""
    ∧ (formStep offlineCtx aliceState FormEvent.submit).2.1 = [] := by decide

/-- C2 (amended): while the form is not complete, a submit with a blank
trimmed current value sends nothing and sets a non-empty validation error;
with a non-blank trimmed value it sends the field message carrying the
trimmed value, provided the component is connected and the client exists;
if it is not connected (or there is no client) nothing is sent, the state
is unchanged and a not-connected notification is shown instead. -/
theorem handleSubmit_behaviour :
    (∀ (ctx : Ctx) (s : FormState),
        ctx.isConnected = true → ctx.clientAvailable = true →
        s.formComplete = false →
        if jsTrim (getField s.formData s.currentField) = "" then
          (formStep ctx s FormEvent.submit).2.1 = []
          ∧ (formStep ctx s FormEvent.submit).1.validationError ≠ ""
        else
          (formStep ctx s FormEvent.submit).2.1
            = [ClientMessage.formFieldData s.currentField
                (jsTrim (getField s.formData s.currentField))])
    ∧ (∀ (ctx : Ctx) (s : FormState),
        (ctx.isConnected = false ∨ ctx.clientAvailable = false) →
        s.formComplete = false →
        jsTrim (getField s.formData s.currentField) ≠ "" →
        (formStep ctx s FormEvent.submit).2.1 = []
        ∧ (formStep ctx s FormEvent.submit).2.2 = ["Not Connected"]
        ∧ (formStep ctx s FormEvent.submit).1 = s) := by
  constructor
  · intro ctx s h1 h2 h3
    obtain ⟨ic, ca, sr⟩ := ctx
    subst h1; subst h2
    simp only [formStep, handleSubmit, h3]
    split
    · next hblank =>
        simp [hblank, append_is_required_ne_empty]
    · next hblank =>
        cases sr <;> simp [hblank, sendFieldData]
  · intro ctx s h1 h2 h3
    obtain ⟨ic, ca, sr⟩ := ctx
    have hg : (ic && ca) = false := by
      rcases h1 with h1 | h1 <;> simp_all
    simp only [formStep, handleSubmit, h2]
    split
    · next hblank => simp_all
    · simp [sendFieldData, hg]

/-- Witness for C2 (amended): submitting the filled initial name field
while connected sends exactly the field message with the trimmed value. -/
theorem handleSubmit_behaviour_witness :
    (if jsTrim (getField aliceState.formData aliceState.currentField) = "" then
      (formStep onlineCtx aliceState FormEvent.submit).2.1 = []
      ∧ (formStep onlineCtx aliceState FormEvent.submit).1.validationError ≠ ""
    else
      (formStep onlineCtx aliceState FormEvent.submit).2.1
        = [ClientMessage.formFieldData aliceState.currentField
            (jsTrim (getField aliceState.formData aliceState.currentField))]) :=
  handleSubmit_behaviour.1 onlineCtx aliceState rfl rfl rfl

/-- C6: every failure is handled locally.  For any failing step of
`handleConnect` (no client, failed health GET, failed connect POST,
rejected SDK connect) the catch branch leaves exactly one destructive
toast, each outward operation was attempted at most once, and the
resulting state only clears the connecting flag (on top of the attempt
count bumped on entry).  A rejected `sendClientMessage` in the form
component likewise sends exactly once, toasts once, and only resets the
submitting flag. -/
theorem error_paths_local :
    (∀ (s : ConnBtnState) (a h c k : Bool),
        a = false ∨ h = false ∨ c = false ∨ k = false →
        (handleConnect s a h c k).1
            = { isConnecting := false, transportState := s.transportState,
                connectionAttempts := s.connectionAttempts + 1 }
        ∧ ((handleConnect s a h c k).2.filter isErrorToast).length = 1
        ∧ (handleConnect s a h c k).2.count ConnAction.healthGet ≤ 1
        ∧ (handleConnect s a h c k).2.count
            (ConnAction.connectPost "openai" "cartesia") ≤ 1
        ∧ (handleConnect s a h c k).2.count ConnAction.sdkConnect ≤ 1)
    ∧ (∀ (s : FormState) (f : FormField) (v : String),
        sendFieldData rejectedSendCtx s f v
          = ({ s with isSubmitting := false },
              [ClientMessage.formFieldData f v], ["Send Failed"]))
    ∧ (∀ (s : FormState),
        handleCompleteForm rejectedSendCtx s
          = ({ s with isSubmitting := false },
              [ClientMessage.formComplete s.formData], ["Submission Failed"])) := by
  refine ⟨?_, ?_, ?_⟩
  · intro s a h c k hfail
    cases a <;> cases h <;> cases c <;> cases k <;>
      simp_all [handleConnect, isErrorToast] <;> decide
  · intro s f v
    simp [sendFieldData, rejectedSendCtx]
  · intro s
    simp [handleCompleteForm, rejectedSendCtx]

/-- Witness for C6: the failed-health-check run at a concrete state. -/
theorem error_paths_local_witness :
    (handleConnect connStart true false true true).1
      = { isConnecting := false, transportState := connStart.transportState,
          connectionAttempts := connStart.connectionAttempts + 1 }
    ∧ ((handleConnect connStart true false true true).2.filter
        isErrorToast).length = 1
    ∧ (handleConnect connStart true false true true).2.count
        ConnAction.healthGet ≤ 1
    ∧ (handleConnect connStart true false true true).2.count
        (ConnAction.connectPost "openai" "cartesia") ≤ 1
    ∧ (handleConnect connStart true false true true).2.count
        ConnAction.sdkConnect ≤ 1 :=
  error_paths_local.1 connStart true false true true (Or.inr (Or.inl rfl))

/-- C8: a server response with status error leaves the three stored field
values, the current-field pointer, the completion flag and even the
configured field identity unchanged; only the validation error, the
submitting flag and the label, placeholder and required parts of the field
configuration can move. -/
theorem error_response_frame (s : FormState) (r : ServerResponseData)
    (hst : r.status = some RespStatus.error) :
    (onServerResponse s (some r)).1.formData = s.formData
    ∧ (onServerResponse s (some r)).1.currentField = s.currentField
    ∧ (onServerResponse s (some r)).1.formComplete = s.formComplete
    ∧ (onServerResponse s (some r)).1.fieldConfig.field = s.fieldConfig.field := by
  simp only [onServerResponse, hst]
  cases hv : truthyStr r.validation_error <;>
    cases r.current_field_config <;> simp

/-- Witness for C8: a concrete error response against the initial state. -/
theorem error_response_frame_witness :
    (onServerResponse initFormState (some sampleErrorResponse)).1.formData
        = initFormState.formData
    ∧ (onServerResponse initFormState (some sampleErrorResponse)).1.currentField
        = initFormState.currentField
    ∧ (onServerResponse initFormState (some sampleErrorResponse)).1.formComplete
        = initFormState.formComplete
    ∧ (onServerResponse initFormState
        (some sampleErrorResponse)).1.fieldConfig.field
        = initFormState.fieldConfig.field :=
  error_response_frame initFormState sampleErrorResponse rfl

/-- C9: once the form is complete, a submit only shows the
already-complete toast: the state is returned unchanged and no message is
sent; `canSubmit` is false in every such state. -/
theorem submit_after_complete (ctx : Ctx) (s : FormState)
    (hdone : s.formComplete = true) :
    formStep ctx s FormEvent.submit = (s, [], ["Form Already Complete"])
    ∧ canSubmit ctx.isConnected s = false := by
  constructor
  · simp [formStep, handleSubmit, hdone]
  · simp [canSubmit, hdone]

/-- Witness for C9: submitting a completed initial state. -/
theorem submit_after_complete_witness :
    formStep onlineCtx { initFormState with formComplete := true }
        FormEvent.submit
      = ({ initFormState with formComplete := true }, [],
          ["Form Already Complete"])
    ∧ canSubmit onlineCtx.isConnected { initFormState with formComplete := true }
        = false :=
  submit_after_complete onlineCtx { initFormState with formComplete := true } rfl
